import Mathlib

/-!
Shallow embedding of the slot-scribe-booking application's booking domain
model: the database schema and row-level-security policies of the SQL
migration (`src/unnamed/part_000`), the booking-creation flow of
`BookSlot.tsx` (`src/unnamed/part_002`), the admin status-update flow of
`src/src/pages/AdminDashboard.tsx`, and the profile-fetch fallback of
`src/src/contexts/AuthContext.tsx`.

Conventions: UUIDs become `Nat` ids; SQL `DATE`/`TIME` values are kept as
their wire strings (`"2024-06-15"`, `"10:00"`); `DECIMAL(10,2)` costs
become `ℚ`; `TIMESTAMP` columns become `Nat` ticks.  A database is a
triple of row lists.  Query results keep row order but drop the cosmetic
`ORDER BY` clauses, which no claim here is about.
-/

namespace SlotScribe

/-- Enum `user_role` of the migration: `('user', 'admin')`. -/
inductive UserRole
  | user
  | admin
deriving DecidableEq, Repr

/-- Enum `booking_status` of the migration: `('pending', 'confirmed', 'canceled', 'no-show')`;
`noShow` stands for the SQL label `'no-show'`. -/
inductive BookingStatus
  | pending
  | confirmed
  | canceled
  | noShow
deriving DecidableEq, Repr

/-- Row of `public.profiles` (id, email, name, role; timestamps omitted —
no claim touches profile timestamps). -/
structure Profile where
  id : Nat
  email : String
  name : String
  role : UserRole
deriving DecidableEq, Repr

/-- Row of `public.games` (timestamps omitted — no claim touches game
timestamps). -/
structure Game where
  id : Nat
  name : String
  description : Option String
  is_active : Bool
deriving DecidableEq, Repr

/-- Row of `public.bookings`. -/
structure Booking where
  id : Nat
  user_id : Nat
  game_id : Nat
  booking_date : String
  time_slot : String
  status : BookingStatus
  cost : Option ℚ
  notes : Option String
  created_at : Nat
  updated_at : Nat
deriving DecidableEq, Repr

/-- The database: the three row-level-secured tables of the migration. -/
structure Db where
  profiles : List Profile
  games : List Game
  bookings : List Booking
deriving DecidableEq, Repr

/-- The admin test each policy embeds:
`EXISTS (SELECT 1 FROM public.profiles WHERE id = auth.uid() AND role = 'admin')`. -/
def isAdmin (db : Db) (uid : Nat) : Bool :=
  db.profiles.any (fun p => decide (p.id = uid ∧ p.role = UserRole.admin))

/-- RLS `SELECT` policy "Users can view own bookings":
`user_id = auth.uid() OR` the acting principal is an admin. -/
def canSelectBooking (db : Db) (uid : Nat) (b : Booking) : Bool :=
  decide (b.user_id = uid) || isAdmin db uid

/-- RLS `UPDATE` policy "Users can update own bookings": same predicate as
the select policy. -/
def canUpdateBooking (db : Db) (uid : Nat) (b : Booking) : Bool :=
  decide (b.user_id = uid) || isAdmin db uid

/-- RLS `SELECT` visibility for `public.games`: the union of
"Anyone can view active games" (`is_active = true`) and
"Admins can manage games" (`FOR ALL` with the admin test). -/
def canSelectGame (db : Db) (uid : Nat) (g : Game) : Bool :=
  g.is_active || isAdmin db uid

/-- Error taxonomy of the spec that the storage layer can raise on the
operations modelled here. -/
inductive DbError
  | ConflictError
  | PermissionDenied
  | NotFoundError
deriving DecidableEq, Repr

/-- Two bookings occupy the same slot: equal on the `UNIQUE(game_id,
booking_date, time_slot)` columns. -/
def sameSlot (a b : Booking) : Bool :=
  decide (a.game_id = b.game_id ∧ a.booking_date = b.booking_date ∧ a.time_slot = b.time_slot)

/-- Some row of the ledger already occupies `(gameId, d, t)` — the state in
which the unique constraint rejects an insert. -/
def slotTaken (db : Db) (gameId : Nat) (d t : String) : Bool :=
  db.bookings.any (fun b => decide (b.game_id = gameId ∧ b.booking_date = d ∧ b.time_slot = t))

/-- The `UNIQUE(game_id, booking_date, time_slot)` invariant on a ledger:
no two rows share the slot triple. -/
def slotsUnique : List Booking → Bool
  | [] => true
  | b :: rest => (!rest.any (fun c => sameSlot b c)) && slotsUnique rest

/-- The row `handleSubmit` (BookSlot.tsx) inserts: caller-chosen user, game,
date and slot, `status: 'pending'`, and every other column left to its
schema default (`cost`/`notes` null, timestamps `NOW()`). -/
def handleSubmitRow (userId gameId : Nat) (d t : String) (freshId now : Nat) : Booking :=
  { id := freshId, user_id := userId, game_id := gameId, booking_date := d,
    time_slot := t, status := BookingStatus.pending, cost := none, notes := none,
    created_at := now, updated_at := now }

/-- Insert into `public.bookings` as issued by `handleSubmit`, under the RLS
insert policy "Users can create own bookings" (`WITH CHECK (user_id = auth.uid())`)
and the `UNIQUE(game_id, booking_date, time_slot)` constraint.  Postgres
evaluates the policy's `WITH CHECK` on the new row before the physical
insert, so a policy violation surfaces before a unique violation. -/
def createBooking (db : Db) (uid userId gameId : Nat) (d t : String)
    (freshId now : Nat) : Except DbError Db :=
  if userId = uid then
    if slotTaken db gameId d t then Except.error DbError.ConflictError
    else Except.ok { db with bookings := db.bookings ++ [handleSubmitRow userId gameId d t freshId now] }
  else Except.error DbError.PermissionDenied

/-- Per-row effect of `updateBookingStatus` (AdminDashboard.tsx): the
`updateData` object carries `status` always and `cost` only when the `cost`
argument was passed (`if (cost !== undefined) updateData.cost = cost`); the
`update_bookings_updated_at` trigger sets `updated_at = NOW()`. -/
def applyUpdate (now : Nat) (st : BookingStatus) (c : Option ℚ) (b : Booking) : Booking :=
  { b with status := st,
           cost := match c with
                   | some v => some v
                   | none => b.cost,
           updated_at := now }

/-- The statement `supabase.from('bookings').update(updateData).eq('id', bookingId)`
issued by `updateBookingStatus`, under the RLS update policy "Users can
update own bookings": every row with the given id that the policy makes
visible is updated; rows the policy hides are silently left alone (no
error is raised for them). -/
def updateBookingStatus (db : Db) (uid : Nat) (bookingId : Nat)
    (st : BookingStatus) (c : Option ℚ) (now : Nat) : Db :=
  { db with bookings := db.bookings.map (fun b =>
      if b.id = bookingId ∧ canUpdateBooking db uid b = true
      then applyUpdate now st c b
      else b) }

/-- The per-row function `updateBookingStatus` maps over the ledger,
exposed for the frame theorems: rows whose id matches and that the update
policy shows are rewritten by `applyUpdate`, all others kept as they are. -/
theorem updateBookingStatus_bookings (db : Db) (uid bookingId : Nat)
    (st : BookingStatus) (c : Option ℚ) (now : Nat) :
    (updateBookingStatus db uid bookingId st c now).bookings =
      db.bookings.map (fun b =>
        if b.id = bookingId ∧ canUpdateBooking db uid b = true
        then applyUpdate now st c b
        else b) := rfl

/-- The status-update targets the admin dashboard renders for a booking in
a given status (AdminDashboard.tsx action cell): `pending` shows Confirm
(`'confirmed'`) and Reject (`'canceled'`); `confirmed` shows Mark No Show
(`'no-show'`); `canceled` and `no-show` show no action. -/
def adminTransitionTargets : BookingStatus → List BookingStatus
  | BookingStatus.pending => [BookingStatus.confirmed, BookingStatus.canceled]
  | BookingStatus.confirmed => [BookingStatus.noShow]
  | BookingStatus.canceled => []
  | BookingStatus.noShow => []

/-- The cost the Confirm dialog passes: `parseFloat(cost) || 0`, with the
parse outcome modelled as `Option ℚ` (`none` for `NaN`).  `NaN` and `0`
are the falsy outcomes of `parseFloat`, so both yield the right operand
`0`; any other parsed value is passed through. -/
def parseFloatOrZero (p : Option ℚ) : ℚ :=
  match p with
  | none => 0
  | some v => if v = 0 then 0 else v

/-- The Confirm-dialog action: `updateBookingStatus(booking.id, 'confirmed',
parseFloat(cost) || 0)`. -/
def confirmBooking (db : Db) (uid : Nat) (bookingId : Nat) (p : Option ℚ)
    (now : Nat) : Db :=
  updateBookingStatus db uid bookingId BookingStatus.confirmed (some (parseFloatOrZero p)) now

/-- Filter `in('status', ['pending', 'confirmed'])` from `fetchBookedSlots`. -/
def occupiesSlot : BookingStatus → Bool
  | BookingStatus.pending => true
  | BookingStatus.confirmed => true
  | BookingStatus.canceled => false
  | BookingStatus.noShow => false

/-- Query `fetchBookedSlots` (BookSlot.tsx): select `time_slot` from `bookings`
where `game_id` and `booking_date` match and status is pending or
confirmed.  The query runs as the authenticated principal, so the RLS
select policy "Users can view own bookings" filters the rows first. -/
def fetchBookedSlots (db : Db) (uid : Nat) (gameId : Nat) (d : String) : List String :=
  (db.bookings.filter (fun b =>
      canSelectBooking db uid b &&
      decide (b.game_id = gameId ∧ b.booking_date = d) &&
      occupiesSlot b.status)).map (fun b => b.time_slot)

/-- Comparison definition for claim C3, following the spec's words:
"`listBookedSlots(gameId, date)` → the set of time slots already occupied
(status ∈ \x7bpending, confirmed\x7d) for a given game and date ...
Available to any principal" — i.e. the same query over all bookings with
no per-principal row filtering. -/
def listBookedSlotsSpec (db : Db) (gameId : Nat) (d : String) : List String :=
  (db.bookings.filter (fun b =>
      decide (b.game_id = gameId ∧ b.booking_date = d) &&
      occupiesSlot b.status)).map (fun b => b.time_slot)

/-- Query `fetchGames` (AdminDashboard.tsx): `select('*')` over `games` with no
application-side filter, so the rows returned are exactly those the RLS
select policies make visible to the acting principal (the cosmetic
`order('name')` is dropped). -/
def fetchGames (db : Db) (uid : Nat) : List Game :=
  db.games.filter (fun g => canSelectGame db uid g)

/-- Insert into `public.profiles` with the table's primary-key constraint:
a second row with an existing id is rejected. -/
def profilesInsert (db : Db) (p : Profile) : Except DbError Db :=
  if db.profiles.any (fun q => decide (q.id = p.id)) then Except.error DbError.ConflictError
  else Except.ok { db with profiles := db.profiles ++ [p] }

/-- SQL `split_part(s, sep, n)` (1-indexed field of the split). -/
def split_part (s sep : String) (n : Nat) : String :=
  (s.splitOn sep).getD (n - 1) ""

/-- Trigger body `public.handle_new_user()` (fired by `on_auth_user_created`):
build the profile row for a fresh auth user — name from the sign-up
metadata, else the local part of the email; role `admin` exactly for the
bootstrap email `admin@sportclub.com`, else `user`. -/
def handle_new_user (uid : Nat) (email : String) (metaName : Option String) : Profile :=
  { id := uid, email := email,
    name := metaName.getD (split_part email "@" 1),
    role := if email = "admin@sportclub.com" then UserRole.admin else UserRole.user }

/-- Flow of `register` (AuthContext.tsx): `supabase.auth.signUp` inserts the fresh
auth user, which fires `on_auth_user_created` and inserts the trigger's
profile; the subsequent explicit profile insert (always `role: 'user'`) is
attempted and its error, if any, is logged and ignored ("Continue anyway
as the trigger might handle it"). -/
def register (db : Db) (uid : Nat) (email name : String) : Db :=
  let db1 : Db := { db with profiles := db.profiles ++ [handle_new_user uid email (some name)] }
  match profilesInsert db1 { id := uid, email := email, name := name, role := UserRole.user } with
  | Except.ok db2 => db2
  | Except.error _ => db1

/-- The authenticated user object (`authUser`) that `fetchUserProfile`
receives: id, email, and the optional `user_metadata.name`. -/
structure AuthUser where
  id : Nat
  email : String
  metaName : Option String
deriving DecidableEq, Repr

/-- Outcome of the `profiles` select in `fetchUserProfile`:
a row was returned; the `PGRST116` record-not-found error; some other
error; or the whole call threw. -/
inductive FetchResult
  | found (p : Profile)
  | notFound
  | otherError
  | thrown
deriving DecidableEq, Repr

/-- The `basicUser` fallback object of `fetchUserProfile`: auth data with
`role: 'user'` ("Default role"). -/
def basicUser (u : AuthUser) : Profile :=
  { id := u.id, email := u.email, name := u.metaName.getD "User", role := UserRole.user }

/-- Function `fetchUserProfile` (AuthContext.tsx): the session profile it stores via
`setUser`.  On a successful read, the row's own fields; on `PGRST116` it
tries to insert a `role: 'user'` profile and uses the row read back when
the insert succeeds (`createOk`), else `basicUser`; on any other error or
a thrown exception, `basicUser`. -/
def fetchUserProfile (u : AuthUser) (res : FetchResult) (createOk : Bool) : Profile :=
  match res with
  | FetchResult.found p => { id := p.id, email := p.email, name := p.name, role := p.role }
  | FetchResult.notFound =>
      if createOk
      then { id := u.id, email := u.email, name := u.metaName.getD "User", role := UserRole.user }
      else basicUser u
  | FetchResult.otherError => basicUser u
  | FetchResult.thrown => basicUser u

/-! Concrete rows used by witnesses and counterexamples. -/

/-- Example ordinary user (id 1). -/
def exProfileA : Profile := { id := 1, email := "a@x.com", name := "A", role := UserRole.user }

/-- Example ordinary user (id 2). -/
def exProfileB : Profile := { id := 2, email := "b@x.com", name := "B", role := UserRole.user }

/-- Example admin profile (id 3). -/
def exAdmin : Profile := { id := 3, email := "admin@sportclub.com", name := "Adm", role := UserRole.admin }

/-- Example pending booking by user 2 for game 7 on 2024-06-15 at 10:00. -/
def exBooking : Booking :=
  { id := 10, user_id := 2, game_id := 7, booking_date := "2024-06-15", time_slot := "10:00",
    status := BookingStatus.pending, cost := none, notes := none, created_at := 0, updated_at := 0 }

/-- Example database: two users, an admin, and user 2's pending booking. -/
def exDb : Db := { profiles := [exProfileA, exProfileB, exAdmin], games := [], bookings := [exBooking] }

/-- The example booking in status canceled. -/
def exBookingC : Booking := { exBooking with status := BookingStatus.canceled }

/-- Example database whose only booking is canceled. -/
def exDbC : Db := { profiles := [exAdmin], games := [], bookings := [exBookingC] }

/-- Example database with no bookings. -/
def exDbEmpty : Db := { profiles := [exProfileA, exProfileB, exAdmin], games := [], bookings := [] }

/-- Example active and inactive games. -/
def exGameOn : Game := { id := 7, name := "Cricket", description := none, is_active := true }

/-- Example inactive game. -/
def exGameOff : Game := { id := 8, name := "Carrom", description := none, is_active := false }

/-- Example database with one active and one inactive game. -/
def exDbGames : Db := { profiles := [exProfileA, exAdmin], games := [exGameOn, exGameOff], bookings := [] }

/-- C4: every successful `create` appends exactly one row to the ledger, and
that row has status `pending` and null cost — `pending` is the sole initial
state a booking can be created in. -/
theorem C4_create_pending_null_cost (db : Db) (uid userId gameId : Nat) (d t : String)
    (freshId now : Nat) (db' : Db)
    (h : createBooking db uid userId gameId d t freshId now = Except.ok db') :
    ∃ b : Booking, db'.bookings = db.bookings ++ [b] ∧
      b.status = BookingStatus.pending ∧ b.cost = none := by
  unfold createBooking at h
  by_cases huser : userId = uid
  · rw [if_pos huser] at h
    by_cases htaken : slotTaken db gameId d t = true
    · rw [if_pos htaken] at h
      exact absurd h (by simp)
    · rw [if_neg htaken] at h
      refine ⟨handleSubmitRow userId gameId d t freshId now, ?_, rfl, rfl⟩
      have := Except.ok.inj h
      rw [← this]
  · rw [if_neg huser] at h
    exact absurd h (by simp)

/-- Witness for C4 at a concrete input: user 2 creating a fresh slot. -/
theorem C4_create_pending_null_cost_witness :
    ∃ b : Booking,
      ({ exDbEmpty with
         bookings := exDbEmpty.bookings ++ [handleSubmitRow 2 7 "2024-06-15" "10:00" 99 9] } : Db).bookings
        = exDbEmpty.bookings ++ [b] ∧
      b.status = BookingStatus.pending ∧ b.cost = none :=
  C4_create_pending_null_cost exDbEmpty 2 2 7 "2024-06-15" "10:00" 99 9 _ (by rfl)

/-- C7: an insert whose `user_id` differs from the acting principal's id is
rejected by the insert policy with `PermissionDenied`, and (the operation
returning an error rather than a state) no booking is created. -/
theorem C7_cross_user_insert_denied (db : Db) (uid userId gameId : Nat) (d t : String)
    (freshId now : Nat) (h : userId ≠ uid) :
    createBooking db uid userId gameId d t freshId now = Except.error DbError.PermissionDenied := by
  unfold createBooking
  rw [if_neg h]

/-- Witness for C7 at a concrete input: principal 1 trying to book as user 2. -/
theorem C7_cross_user_insert_denied_witness :
    createBooking exDb 1 2 7 "2024-06-15" "11:00" 99 9 = Except.error DbError.PermissionDenied :=
  C7_cross_user_insert_denied exDb 1 2 7 "2024-06-15" "11:00" 99 9 (by decide)

/-- Appending a row whose slot no existing row occupies preserves the
unique-slot invariant. -/
theorem slotsUnique_append (bs : List Booking) (nb : Booking)
    (h1 : slotsUnique bs = true)
    (h2 : bs.any (fun b => sameSlot b nb) = false) :
    slotsUnique (bs ++ [nb]) = true := by
  induction bs with
  | nil => rfl
  | cons b rest ih =>
    simp only [slotsUnique, Bool.and_eq_true, Bool.not_eq_true'] at h1
    simp only [List.any_cons, Bool.or_eq_false_iff] at h2
    simp only [List.cons_append, slotsUnique, List.append_eq, Bool.and_eq_true, Bool.not_eq_true',
      List.any_append, Bool.or_eq_false_iff, List.any_cons, List.any_nil, and_true]
    exact ⟨⟨h1.1, h2.1⟩, ih h1.2 h2.2⟩

/-- Occupying the same slot as the row `handleSubmit` builds is exactly
matching its `(gameId, d, t)` triple. -/
theorem any_sameSlot_handleSubmitRow (bs : List Booking) (userId gameId : Nat)
    (d t : String) (freshId now : Nat) :
    bs.any (fun b => sameSlot b (handleSubmitRow userId gameId d t freshId now)) =
      bs.any (fun b => decide (b.game_id = gameId ∧ b.booking_date = d ∧ b.time_slot = t)) := by
  simp only [sameSlot, handleSubmitRow]

/-- C1 (amended): when `(gameId, d, t)` is already occupied by any row under
any status, a further create fails and the ledger is unchanged (the
operation returns an error, not a state) — with `ConflictError` when the
insert passes the self-booking policy (`userId = uid`), and with
`PermissionDenied` (raised by the policy before the unique constraint is
reached) when it does not; and any successful create preserves the
invariant that no two rows of the ledger share a slot triple. -/
theorem C1_unique_slot (db : Db) (uid userId gameId : Nat) (d t : String)
    (freshId now : Nat) :
    (slotTaken db gameId d t = true →
      createBooking db uid userId gameId d t freshId now =
        Except.error (if userId = uid then DbError.ConflictError else DbError.PermissionDenied)) ∧
    (slotsUnique db.bookings = true →
      ∀ db' : Db, createBooking db uid userId gameId d t freshId now = Except.ok db' →
        slotsUnique db'.bookings = true) := by
  constructor
  · intro htaken
    unfold createBooking
    by_cases huser : userId = uid
    · rw [if_pos huser, if_pos htaken, if_pos huser]
    · rw [if_neg huser, if_neg huser]
  · intro huniq db' h
    unfold createBooking at h
    by_cases huser : userId = uid
    · rw [if_pos huser] at h
      by_cases htaken : slotTaken db gameId d t = true
      · rw [if_pos htaken] at h
        exact absurd h (by simp)
      · rw [if_neg htaken] at h
        have hb := (Except.ok.inj h).symm
        rw [hb]
        refine slotsUnique_append db.bookings _ huniq ?_
        rw [any_sameSlot_handleSubmitRow]
        exact Bool.not_eq_true _ ▸ (by simpa [slotTaken] using htaken)
    · rw [if_neg huser] at h
      exact absurd h (by simp)

/-- Counterexample to C1 as stated: with user 2's booking occupying
`(7, 2024-06-15, 10:00)`, principal 1's create for that very slot with
`userId = 2` is rejected by the insert policy with `PermissionDenied`, not
with `ConflictError` — so not every principal's create on an occupied slot
fails with `ConflictError`. -/
theorem C1_counterexample :
    slotTaken exDb 7 "2024-06-15" "10:00" = true ∧
    createBooking exDb 1 2 7 "2024-06-15" "10:00" 99 9 = Except.error DbError.PermissionDenied ∧
    DbError.PermissionDenied ≠ DbError.ConflictError :=
  ⟨by decide, by rfl, by decide⟩

/-- Witness for C1 at a concrete input: user 2 re-creating their own taken
slot gets `ConflictError`. -/
theorem C1_unique_slot_witness :
    createBooking exDb 2 2 7 "2024-06-15" "10:00" 99 9 =
      Except.error (if 2 = 2 then DbError.ConflictError else DbError.PermissionDenied) :=
  (C1_unique_slot exDb 2 2 7 "2024-06-15" "10:00" 99 9).1 (by decide)

/-- C2 (amended): the admin dashboard renders status-update actions only
for the transitions pending→confirmed, pending→canceled and
confirmed→no-show (a booking in any other status gets no action button);
but the underlying update operation itself checks no prior status: for any
booking visible under the update policy (owner or admin) it applies
whatever target status is requested — transitions out of `canceled` or
`no-show` are not rejected by the code, merely not exposed in the UI. -/
theorem C2_transition_exposure (st target : BookingStatus) :
    (target ∈ adminTransitionTargets st ↔
      ((st = BookingStatus.pending ∧
          (target = BookingStatus.confirmed ∨ target = BookingStatus.canceled)) ∨
        (st = BookingStatus.confirmed ∧ target = BookingStatus.noShow))) ∧
    (∀ (db : Db) (uid now : Nat) (c : Option ℚ) (b : Booking),
      b ∈ db.bookings → canUpdateBooking db uid b = true →
      applyUpdate now target c b ∈ (updateBookingStatus db uid b.id target c now).bookings ∧
      (applyUpdate now target c b).status = target) := by
  constructor
  · cases st <;> cases target <;> decide
  · intro db uid now c b hmem hpol
    refine ⟨?_, rfl⟩
    refine List.mem_map.mpr ⟨b, hmem, ?_⟩
    show (if b.id = b.id ∧ canUpdateBooking db uid b = true
          then applyUpdate now target c b else b) = applyUpdate now target c b
    exact if_pos ⟨rfl, hpol⟩

/-- Counterexample to C2 as stated: in a ledger whose only booking is
canceled, the admin's status update to `confirmed` succeeds — a transition
out of the supposedly terminal `canceled` state is not rejected. -/
theorem C2_counterexample :
    exDbC.bookings.map Booking.status = [BookingStatus.canceled] ∧
    (updateBookingStatus exDbC 3 10 BookingStatus.confirmed none 5).bookings.map Booking.status
      = [BookingStatus.confirmed] :=
  ⟨rfl, rfl⟩

/-- Witness for C2 at a concrete input: the update operation applied by the
admin to the canceled example booking. -/
theorem C2_transition_exposure_witness :
    applyUpdate 5 BookingStatus.confirmed none exBookingC ∈
      (updateBookingStatus exDbC 3 exBookingC.id BookingStatus.confirmed none 5).bookings ∧
    (applyUpdate 5 BookingStatus.confirmed none exBookingC).status = BookingStatus.confirmed :=
  (C2_transition_exposure BookingStatus.canceled BookingStatus.confirmed).2
    exDbC 3 5 none exBookingC (by simp [exDbC]) (by decide)

/-- C3: at the failing input, the select policy hides user 2's pending
booking from non-admin principal 1, so `fetchBookedSlots` returns no
occupied slot, while the availability filter the spec describes (all
bookings, irrespective of owner) returns the occupied `10:00` slot — the
row-level select policy defeats the advisory availability check for every
principal who is neither the booking's owner nor an admin. -/
theorem C3_booked_slots_hidden_by_rls :
    isAdmin exDb 1 = false ∧
    exBooking.user_id ≠ 1 ∧
    fetchBookedSlots exDb 1 7 "2024-06-15" = [] ∧
    listBookedSlotsSpec exDb 7 "2024-06-15" = ["10:00"] ∧
    fetchBookedSlots exDb 2 7 "2024-06-15" = ["10:00"] :=
  ⟨rfl, by decide, rfl, rfl, rfl⟩

/-- Helper for C5: the explicit profile insert in `register` always
collides with the row the trigger just created, so the profiles table
after `register` is the old table plus the trigger's row. -/
theorem register_profiles_eq (db : Db) (uid : Nat) (email name : String) :
    (register db uid email name).profiles =
      db.profiles ++ [handle_new_user uid email (some name)] := by
  simp [register, profilesInsert, handle_new_user]

/-- C5: registering a principal whose id is absent from the profiles table
creates exactly one profile for it — the trigger's row — and that row's
role is `admin` exactly when the email is the bootstrap address
`admin@sportclub.com`, and `user` for every other email. -/
theorem C5_bootstrap_admin_role (db : Db) (uid : Nat) (email name : String)
    (habs : db.profiles.all (fun p => decide (p.id ≠ uid)) = true) :
    (register db uid email name).profiles.filter (fun p => decide (p.id = uid)) =
      [handle_new_user uid email (some name)] ∧
    ((handle_new_user uid email (some name)).role = UserRole.admin ↔
      email = "admin@sportclub.com") := by
  constructor
  · rw [register_profiles_eq, List.filter_append]
    have hnil : db.profiles.filter (fun p => decide (p.id = uid)) = [] := by
      rw [List.filter_eq_nil_iff]
      intro p hp
      have := List.all_eq_true.mp habs p hp
      simpa using this
    rw [hnil]
    simp [handle_new_user]
  · unfold handle_new_user
    by_cases h : email = "admin@sportclub.com"
    · simp [h]
    · simp only [if_neg h]
      constructor
      · intro hr
        exact absurd hr (by simp)
      · intro hr
        exact absurd hr h

/-- Witness for C5 at a concrete input: registering the bootstrap email on
an empty profiles table. -/
theorem C5_bootstrap_admin_role_witness :
    (register { profiles := [], games := [], bookings := [] } 5 "admin@sportclub.com" "Boss").profiles.filter
        (fun p => decide (p.id = 5)) =
      [handle_new_user 5 "admin@sportclub.com" (some "Boss")] ∧
    ((handle_new_user 5 "admin@sportclub.com" (some "Boss")).role = UserRole.admin ↔
      "admin@sportclub.com" = "admin@sportclub.com") :=
  C5_bootstrap_admin_role { profiles := [], games := [], bookings := [] } 5
    "admin@sportclub.com" "Boss" (by rfl)

/-- C6: a games listing returns exactly the active games for a non-admin
principal, and every game (active or not) for an admin principal. -/
theorem C6_games_visibility (db : Db) (uid : Nat) :
    (isAdmin db uid = false → fetchGames db uid = db.games.filter (fun g => g.is_active)) ∧
    (isAdmin db uid = true → fetchGames db uid = db.games) := by
  constructor
  · intro h
    unfold fetchGames canSelectGame
    simp only [h, Bool.or_false]
  · intro h
    unfold fetchGames canSelectGame
    simp only [h, Bool.or_true, List.filter_true]

/-- Witness for C6 at concrete inputs: non-admin 1 sees only the active
game; admin 3 sees both. -/
theorem C6_games_visibility_witness :
    fetchGames exDbGames 1 = exDbGames.games.filter (fun g => g.is_active) ∧
    fetchGames exDbGames 3 = exDbGames.games :=
  ⟨(C6_games_visibility exDbGames 1).1 (by decide),
   (C6_games_visibility exDbGames 3).2 (by decide)⟩

/-- C8: a status update touches only the matched (and policy-visible) row,
and on that row only `status`, `cost` (and that only when a cost argument
was passed) and `updated_at`; `user_id`, `game_id`, `booking_date`,
`time_slot`, `notes` and `created_at` are unchanged on every row, rows
whose id differs are wholly unchanged, and the ledger's length is
unchanged. -/
theorem C8_update_frame (db : Db) (uid bookingId : Nat) (st : BookingStatus)
    (c : Option ℚ) (now : Nat) :
    (updateBookingStatus db uid bookingId st c now).bookings.length = db.bookings.length ∧
    ∀ (i : Nat) (h : i < db.bookings.length)
      (h2 : i < (updateBookingStatus db uid bookingId st c now).bookings.length),
      ((updateBookingStatus db uid bookingId st c now).bookings.get ⟨i, h2⟩).user_id
          = (db.bookings.get ⟨i, h⟩).user_id ∧
      ((updateBookingStatus db uid bookingId st c now).bookings.get ⟨i, h2⟩).game_id
          = (db.bookings.get ⟨i, h⟩).game_id ∧
      ((updateBookingStatus db uid bookingId st c now).bookings.get ⟨i, h2⟩).booking_date
          = (db.bookings.get ⟨i, h⟩).booking_date ∧
      ((updateBookingStatus db uid bookingId st c now).bookings.get ⟨i, h2⟩).time_slot
          = (db.bookings.get ⟨i, h⟩).time_slot ∧
      ((updateBookingStatus db uid bookingId st c now).bookings.get ⟨i, h2⟩).notes
          = (db.bookings.get ⟨i, h⟩).notes ∧
      ((updateBookingStatus db uid bookingId st c now).bookings.get ⟨i, h2⟩).created_at
          = (db.bookings.get ⟨i, h⟩).created_at ∧
      (c = none →
        ((updateBookingStatus db uid bookingId st c now).bookings.get ⟨i, h2⟩).cost
          = (db.bookings.get ⟨i, h⟩).cost) ∧
      ((db.bookings.get ⟨i, h⟩).id ≠ bookingId →
        (updateBookingStatus db uid bookingId st c now).bookings.get ⟨i, h2⟩
          = db.bookings.get ⟨i, h⟩) := by
  constructor
  · simp [updateBookingStatus]
  · intro i h h2
    have hb : (updateBookingStatus db uid bookingId st c now).bookings.get ⟨i, h2⟩ =
        (if (db.bookings.get ⟨i, h⟩).id = bookingId ∧
            canUpdateBooking db uid (db.bookings.get ⟨i, h⟩) = true
         then applyUpdate now st c (db.bookings.get ⟨i, h⟩)
         else db.bookings.get ⟨i, h⟩) := by
      simp [updateBookingStatus_bookings, List.get_eq_getElem, List.getElem_map]
    rw [hb]
    by_cases hcond : (db.bookings.get ⟨i, h⟩).id = bookingId ∧
        canUpdateBooking db uid (db.bookings.get ⟨i, h⟩) = true
    · rw [if_pos hcond]
      refine ⟨rfl, rfl, rfl, rfl, rfl, rfl, ?_, ?_⟩
      · intro hc
        subst hc
        rfl
      · intro hne
        exact absurd hcond.1 hne
    · rw [if_neg hcond]
      exact ⟨rfl, rfl, rfl, rfl, rfl, rfl, fun _ => rfl, fun _ => rfl⟩

/-- Witness for C8 at a concrete input: an update aimed at the absent id 11
leaves row 0 of the example ledger unchanged. -/
theorem C8_update_frame_witness :
    (updateBookingStatus exDb 3 11 BookingStatus.confirmed none 5).bookings.get ⟨0, by decide⟩
      = exDb.bookings.get ⟨0, by decide⟩ :=
  (((C8_update_frame exDb 3 11 BookingStatus.confirmed none 5).2
      0 (by decide) (by decide)).2.2.2.2.2.2.2) (by decide)

/-- C9: confirming a booking through the admin dialog sets status
`confirmed` and a non-null cost equal to `parseFloat(cost) || 0`: the
parsed number when the input parses, and `0` when it does not (empty or
unparseable input, i.e. `NaN`) — the booking is neither rejected nor left
with a null cost. -/
theorem C9_confirm_cost (db : Db) (uid bookingId now : Nat) (p : Option ℚ)
    (b : Booking) (hmem : b ∈ db.bookings) (hid : b.id = bookingId)
    (hpol : canUpdateBooking db uid b = true) :
    (applyUpdate now BookingStatus.confirmed (some (parseFloatOrZero p)) b ∈
        (confirmBooking db uid bookingId p now).bookings) ∧
    (applyUpdate now BookingStatus.confirmed (some (parseFloatOrZero p)) b).status
        = BookingStatus.confirmed ∧
    (applyUpdate now BookingStatus.confirmed (some (parseFloatOrZero p)) b).cost
        = some (parseFloatOrZero p) ∧
    (∀ v : ℚ, p = some v → parseFloatOrZero p = v) ∧
    (p = none → parseFloatOrZero p = 0) := by
  refine ⟨?_, rfl, rfl, ?_, ?_⟩
  · unfold confirmBooking updateBookingStatus
    refine List.mem_map.mpr ⟨b, hmem, ?_⟩
    show (if b.id = bookingId ∧ canUpdateBooking db uid b = true
          then applyUpdate now BookingStatus.confirmed (some (parseFloatOrZero p)) b else b)
        = applyUpdate now BookingStatus.confirmed (some (parseFloatOrZero p)) b
    exact if_pos ⟨hid, hpol⟩
  · intro v hv
    subst hv
    show (if v = 0 then (0 : ℚ) else v) = v
    by_cases h0 : v = 0
    · rw [if_pos h0]
      exact h0.symm
    · rw [if_neg h0]
  · intro hn
    subst hn
    rfl

/-- Witness for C9 at a concrete input: the admin confirms the example
pending booking with a cost input that parses to 500. -/
theorem C9_confirm_cost_witness :
    (applyUpdate 5 BookingStatus.confirmed (some (parseFloatOrZero (some 500))) exBooking ∈
        (confirmBooking exDb 3 10 (some 500) 5).bookings) ∧
    (applyUpdate 5 BookingStatus.confirmed (some (parseFloatOrZero (some 500))) exBooking).status
        = BookingStatus.confirmed ∧
    (applyUpdate 5 BookingStatus.confirmed (some (parseFloatOrZero (some 500))) exBooking).cost
        = some (parseFloatOrZero (some 500)) ∧
    (∀ v : ℚ, (some 500 : Option ℚ) = some v → parseFloatOrZero (some 500) = v) ∧
    ((some 500 : Option ℚ) = none → parseFloatOrZero (some 500) = 0) :=
  C9_confirm_cost exDb 3 10 5 (some 500) exBooking (by simp [exDb]) rfl (by decide)

/-- C10: whenever the profile select did not return a row — record not
found (whether or not the recovery insert succeeded), any other error, or
a thrown exception — the session profile `fetchUserProfile` stores has
role `user`; an admin session role can only come from a successfully read
profile row. -/
theorem C10_fallback_role_user (u : AuthUser) (res : FetchResult) (createOk : Bool)
    (h : ∀ p : Profile, res ≠ FetchResult.found p) :
    (fetchUserProfile u res createOk).role = UserRole.user := by
  cases res with
  | found p => exact absurd rfl (h p)
  | notFound => cases createOk <;> rfl
  | otherError => rfl
  | thrown => rfl

/-- Witness for C10 at a concrete input: a failed profile fetch for an
authenticated user yields a session role of `user`. -/
theorem C10_fallback_role_user_witness :
    (fetchUserProfile { id := 9, email := "c@x.com", metaName := none }
        FetchResult.otherError false).role = UserRole.user :=
  C10_fallback_role_user { id := 9, email := "c@x.com", metaName := none }
    FetchResult.otherError false (fun _ h => FetchResult.noConfusion h)

end SlotScribe
